import Mathlib

/-!
Verification of the agent-orchestration tutorial repository.

The repository consists of four Python scripts built on a hosted agent SDK:
`guardrails_and_tracking.py` (a delegation agent with a business-topic input
guardrail), `main.py` (a configuration variant with an advisory-only
guardrail), `agents_and_tools.py` (plain delegation without guardrails) and
`vectorize_docs.py` (document ingestion into a vendor vector store).

The embedding below translates the local control flow of these scripts into
Lean. Calls to the hosted LLM runtime (the classifier run, the routing
decision) and to the vendor HTTP API (upload, create, attach, list) are
modelled as oracle parameters: functions supplied from outside whose result
the script consumes. Python exceptions become `Except`, `sys.exit` becomes
an `Except Nat` error carrying the exit code, and the sequence of vendor API
calls a run performs is collected as an explicit trace so that frame
properties (which calls were made) can be stated.
-/

namespace Spec2Proof

/-! ## guardrails_and_tracking.py -/

/-- Output model of the guardrail agent in `guardrails_and_tracking.py`:
pydantic class `BusinessQueryClassification` with fields
`is_business_related : bool` and `reasoning : str`. -/
structure BusinessQueryClassification where
  is_business_related : Bool
  reasoning : String
deriving DecidableEq

/-- The SDK result type a guardrail function returns: `output_info` carries
arbitrary classification data, `tripwire_triggered` tells the runner whether
to abort the run. -/
structure GuardrailFunctionOutput (α : Type) where
  output_info : α
  tripwire_triggered : Bool
deriving DecidableEq

/-- Embedding of `business_query_guardrail` from `guardrails_and_tracking.py`.
The upstream call `Runner.run(guardrail_agent, input_data)` followed by
`final_output_as(BusinessQueryClassification)` is the oracle `classify`;
an exception raised by that call is an `Except.error`, which the function
body does not catch, so it propagates. On success the function returns the
tripwire flag from the two explicit branches of the source. -/
def business_query_guardrail
    (classify : String → Except String BusinessQueryClassification)
    (input_data : String) :
    Except String (GuardrailFunctionOutput BusinessQueryClassification) :=
  match classify input_data with
  | .error e => .error e
  | .ok final_output =>
    if !final_output.is_business_related then
      .ok { output_info := final_output, tripwire_triggered := true }
    else
      .ok { output_info := final_output, tripwire_triggered := false }

/-- Specialist agents the delegation agent of `guardrails_and_tracking.py`
can hand off to: `rag_agent` and `search_agent`. -/
inductive Specialist where
  | ragAgent
  | searchAgent
deriving DecidableEq

/-- Terminal outcome of one orchestrated run of the delegation agent. -/
inductive RunOutcome where
  | rejected (info : BusinessQueryClassification)
  | done (specialist : Specialist)
  | failed (e : String)
deriving DecidableEq

/-- Modelled from the spec: the SDK `Runner.run` semantics for an agent with
input guardrails, which is not part of this repository. The spec states that
the guardrail completes before routing begins, that a set rejection flag
makes the orchestrator abort with the distinguished rejected outcome before
any specialist is invoked (the `InputGuardrailTripwireTriggered` exception
path that `main` in `guardrails_and_tracking.py` catches), and that a failed
classification call is a hard failure of the run. On a clear flag the
delegation agent selects exactly one specialist; that selection is the
oracle `route`. The second component of the result is the list of specialist
capabilities invoked during the run. -/
def run_delegation
    (classify : String → Except String BusinessQueryClassification)
    (route : String → Specialist) (query : String) :
    RunOutcome × List Specialist :=
  match business_query_guardrail classify query with
  | .error e => (.failed e, [])
  | .ok g =>
    if g.tripwire_triggered then (.rejected g.output_info, [])
    else (.done (route query), [route query])

/-! ## main.py (configuration variant) -/

/-- Output model of the guardrail agent in `main.py`: pydantic class
`TopicClassification` with fields `is_document_related`,
`requires_web_search` and `reasoning`. -/
structure TopicClassification where
  is_document_related : Bool
  requires_web_search : Bool
  reasoning : String
deriving DecidableEq

/-- Embedding of `topic_classifier_guardrail` from `main.py`. The source has
a single return statement with `tripwire_triggered=False`; the classification
is recorded in `output_info` only. A failing upstream classification call
propagates as in the other variant. -/
def topic_classifier_guardrail
    (classify : String → Except String TopicClassification)
    (input_data : String) :
    Except String (GuardrailFunctionOutput TopicClassification) :=
  match classify input_data with
  | .error e => .error e
  | .ok final_output =>
    .ok { output_info := final_output, tripwire_triggered := false }

/-! ## Module-level execution order of main.py

Python executes module-level statements top to bottom. An assignment or a
class statement evaluates the names its right-hand side mentions at that
point; a `def` or `async def` statement binds the function name without
evaluating the names in its body. A reference to a name not yet bound
raises `NameError` and aborts the module load. -/

/-- One module-level Python statement, as relevant to name resolution:
`bind name refs` is an assignment or class statement whose right-hand side
evaluates `refs` in order and then binds `name`; `defn name` is a function
definition, which binds `name` without evaluating its body. -/
inductive PyStmt where
  | bind (name : String) (refs : List String)
  | defn (name : String)

/-- Runs module-level statements in order against an environment of bound
names. Returns the final environment, or the first name whose lookup raises
`NameError`. -/
def loadModule (env : List String) : List PyStmt → Except String (List String)
  | [] => .ok env
  | .defn n :: rest => loadModule (n :: env) rest
  | .bind n refs :: rest =>
    match refs.find? (fun r => !env.contains r) with
    | some r => .error r
    | none => loadModule (n :: env) rest

/-- Names bound by the import statements at the top of `main.py`. -/
def mainPyImports : List String :=
  ["asyncio", "BaseModel", "Agent", "InputGuardrail", "GuardrailFunctionOutput",
   "Runner", "FileSearchTool", "WebSearchTool", "function_tool", "RunConfig"]

/-- The module-level statements of `main.py` in source order, with the names
each right-hand side evaluates. The `delegation_agent` assignment evaluates
`Agent`, the two handoff targets, `InputGuardrail` and
`topic_classifier_guardrail`; the latter is only defined further down, by an
`async def` statement. -/
def mainPyStmts : List PyStmt :=
  [ .bind "document_file_search" ["FileSearchTool"],
    .bind "rag_agent" ["Agent", "document_file_search"],
    .bind "web_search" ["WebSearchTool"],
    .bind "search_agent" ["Agent", "web_search"],
    .bind "delegation_agent"
      ["Agent", "rag_agent", "search_agent", "InputGuardrail",
       "topic_classifier_guardrail"],
    .bind "TopicClassification" ["BaseModel"],
    .bind "guardrail_agent" ["Agent", "TopicClassification"],
    .defn "topic_classifier_guardrail",
    .defn "main" ]

/-! ## Claims C1 to C4 and C10 -/

/-- C1: in the guardrails-and-tracking variant, every query whose
classification verdict has the rejection flag set (`is_business_related`
false) terminates the run in the distinguished rejected outcome, and the
list of specialist capabilities invoked during the run is empty. -/
theorem c1_rejected_query_reaches_rejected_without_specialist
    (classify : String → Except String BusinessQueryClassification)
    (route : String → Specialist) (query : String)
    (v : BusinessQueryClassification)
    (h : classify query = .ok v) (hv : v.is_business_related = false) :
    run_delegation classify route query = (.rejected v, []) := by
  simp [run_delegation, business_query_guardrail, h, hv]

/-- Witness for C1, following Scenario A of the spec: the cookie-recipe
query classified as not business-related ends rejected with no specialist
invoked. -/
theorem c1_witness :
    run_delegation
      (fun _ => .ok { is_business_related := false,
                      reasoning := "cooking query, not business" })
      (fun _ => .ragAgent)
      "What\x27s the recipe for chocolate chip cookies?" =
    (.rejected { is_business_related := false,
                 reasoning := "cooking query, not business" }, []) :=
  c1_rejected_query_reaches_rejected_without_specialist _ _ _ _ rfl rfl

/-- C2: whenever the classification call succeeds with verdict `v`,
`business_query_guardrail` returns a `GuardrailFunctionOutput` whose
tripwire flag is true exactly when `v.is_business_related` is false, and
whose `output_info` is the full verdict `v` in both cases. -/
theorem c2_guardrail_tripwire_iff_not_business
    (classify : String → Except String BusinessQueryClassification)
    (input_data : String) (v : BusinessQueryClassification)
    (h : classify input_data = .ok v) :
    ∃ g, business_query_guardrail classify input_data = .ok g ∧
      g.output_info = v ∧
      (g.tripwire_triggered = true ↔ v.is_business_related = false) := by
  cases hv : v.is_business_related <;>
    simp [business_query_guardrail, h, hv]

/-- Witness for C2 at a concrete business-related verdict. -/
theorem c2_witness :
    ∃ g, business_query_guardrail
        (fun _ => .ok { is_business_related := true, reasoning := "about Brainli" })
        "What services does Brainli offer?" = .ok g ∧
      g.output_info =
        { is_business_related := true, reasoning := "about Brainli" } ∧
      (g.tripwire_triggered = true ↔
        BusinessQueryClassification.is_business_related
          { is_business_related := true, reasoning := "about Brainli" } = false) :=
  c2_guardrail_tripwire_iff_not_business _ _ _ rfl

/-- C3: in the configuration variant, `topic_classifier_guardrail` is
advisory-only: for every query and every successful classification result,
the tripwire flag of the returned output is false and the classification is
recorded in `output_info`. -/
theorem c3_topic_guardrail_never_trips
    (classify : String → Except String TopicClassification)
    (input_data : String) (v : TopicClassification)
    (h : classify input_data = .ok v) :
    topic_classifier_guardrail classify input_data =
      .ok { output_info := v, tripwire_triggered := false } := by
  simp [topic_classifier_guardrail, h]

/-- Witness for C3 at a classification that is both document-unrelated and
web-unrelated: the tripwire is still not triggered. -/
theorem c3_witness :
    topic_classifier_guardrail
      (fun _ => .ok { is_document_related := false, requires_web_search := false,
                      reasoning := "off topic" })
      "tell me a joke" =
    .ok { output_info := { is_document_related := false,
                           requires_web_search := false,
                           reasoning := "off topic" },
          tripwire_triggered := false } :=
  c3_topic_guardrail_never_trips _ _ _ rfl

/-- C4: if the upstream classification call inside the guardrail fails, the
error propagates out of `business_query_guardrail` unchanged: no verdict is
produced and there is no catch-and-accept branch. -/
theorem c4_classifier_failure_propagates
    (classify : String → Except String BusinessQueryClassification)
    (input_data : String) (e : String)
    (h : classify input_data = .error e) :
    business_query_guardrail classify input_data = .error e := by
  simp [business_query_guardrail, h]

/-- Witness for C4 at a concrete failing classifier. -/
theorem c4_witness :
    business_query_guardrail (fun _ => .error "classifier unavailable") "q" =
      .error "classifier unavailable" :=
  c4_classifier_failure_propagates _ _ _ rfl

/-- C10: loading `main.py` raises `NameError` on
`topic_classifier_guardrail`: the `delegation_agent` assignment evaluates
that name at module level before the `async def` statement further down
binds it, so the module never loads and the delegation flow of this variant
is unreachable as written. -/
theorem c10_main_py_load_raises_name_error :
    loadModule mainPyImports mainPyStmts = .error "topic_classifier_guardrail" := by
  rfl

/-! ## vectorize_docs.py

The ingestion script drives four vendor API endpoints. Each endpoint is an
oracle field of `Client`; the calls a run performs are collected in order as
a trace of `ApiCall` values. `sys.exit(1)` is modelled as `Except.error 1`
(a non-zero process exit status). -/

/-- One vendor API call the ingestion script can make. -/
inductive ApiCall where
  | filesCreate
  | vectorStoresCreate
  | vectorStoresFilesCreate (vector_store_id : String) (file_id : String)
  | vectorStoresFilesList (vector_store_id : String)
deriving DecidableEq

/-- True for the calls that mutate vendor-side state; the status listing is
the only read-only call. -/
def ApiCall.mutates : ApiCall → Bool
  | .vectorStoresFilesList _ => false
  | _ => true

/-- One entry of a vector-store file listing: a file id and its processing
status string. -/
structure FileStatus where
  id : String
  status : String
deriving DecidableEq

/-- Result of the `vector_stores.files.list` endpoint. -/
structure FileListResult where
  data : List FileStatus
deriving DecidableEq

/-- The vendor API client as an oracle: each field is the outcome the
corresponding endpoint would produce, an `Except.error` being a raised
exception. -/
structure Client where
  files_create : Except String String
  vector_stores_create : Except String String
  vector_stores_files_create : String → String → Except String Unit
  vector_stores_files_list : String → Except String FileListResult

/-- Local environment of the ingestion script: the value of
`os.getenv("OPENAI_API_KEY")` and whether the local file `test.pdf`
exists (so that `open` succeeds). -/
structure IngestEnv where
  openai_api_key : Option String
  test_pdf_exists : Bool

/-- Python truth test `not os.getenv(...)`: true when the variable is unset
or empty. -/
def is_falsy_str : Option String → Bool
  | none => true
  | some s => s.isEmpty

/-- Embedding of `vectorize_document` from `vectorize_docs.py`. In source
order: exit 1 when the API key is falsy; open `test.pdf` and upload it,
exiting 1 on `FileNotFoundError` or any upload exception; create the vector
store, exiting 1 on exception; attach the file to the store, exiting 1 on
exception; list the file statuses once, ignoring any exception; return the
vector store id. The second component is the trace of API calls made. -/
def vectorize_document (env : IngestEnv) (client : Client) :
    Except Nat String × List ApiCall :=
  if is_falsy_str env.openai_api_key then (.error 1, [])
  else if !env.test_pdf_exists then (.error 1, [])
  else
    match client.files_create with
    | .error _ => (.error 1, [.filesCreate])
    | .ok file_id =>
      match client.vector_stores_create with
      | .error _ => (.error 1, [.filesCreate, .vectorStoresCreate])
      | .ok vector_store_id =>
        match client.vector_stores_files_create vector_store_id file_id with
        | .error _ =>
          (.error 1,
           [.filesCreate, .vectorStoresCreate,
            .vectorStoresFilesCreate vector_store_id file_id])
        | .ok _ =>
          (.ok vector_store_id,
           [.filesCreate, .vectorStoresCreate,
            .vectorStoresFilesCreate vector_store_id file_id,
            .vectorStoresFilesList vector_store_id])

/-- Embedding of `check_status` from `vectorize_docs.py`: one
`vector_stores.files.list` call on the given id; an exception is swallowed.
The first component is the status snapshot obtained, if any. -/
def check_status (client : Client) (vector_store_id : String) :
    Option FileListResult × List ApiCall :=
  match client.vector_stores_files_list vector_store_id with
  | .error _ => (none, [.vectorStoresFilesList vector_store_id])
  | .ok file_status => (some file_status, [.vectorStoresFilesList vector_store_id])

/-- Trace of running `check_status` on the same id `n` times in a row. -/
def check_status_trace_n (client : Client) (vector_store_id : String)
    (n : Nat) : List ApiCall :=
  (List.replicate n (check_status client vector_store_id).2).flatten

/-- Embedding of the `__main__` block of `vectorize_docs.py`: with first
argument `--check-only` and an id, run `check_status` on that id; with
`--check-only` and no id, exit 1; otherwise run `vectorize_document`. -/
def main_entry (argv : List String) (env : IngestEnv) (client : Client) :
    Except Nat Unit × List ApiCall :=
  match argv with
  | _ :: a1 :: rest =>
    if a1 = "--check-only" then
      match rest with
      | id :: _ => (.ok (), (check_status client id).2)
      | [] => (.error 1, [])
    else
      ((vectorize_document env client).1.map fun _ => (),
       (vectorize_document env client).2)
  | _ =>
    ((vectorize_document env client).1.map fun _ => (),
     (vectorize_document env client).2)

/-! ## Claims C5 to C9 -/

/-- C5: the ingestion flow exits with status 1 (non-zero) on a missing or
empty API credential, on a missing local input file, and on any failure of
the upload call, the vector-store create call, or the file-attach call; and
the `--check-only` invocation mode performs exactly one status-listing call
for the given identifier and no upload or create call. -/
theorem c5_exit_codes_and_check_only
    (env : IngestEnv) (client : Client) (id : String) :
    (is_falsy_str env.openai_api_key = true →
      vectorize_document env client = (.error 1, [])) ∧
    (env.test_pdf_exists = false →
      (vectorize_document env client).1 = .error 1) ∧
    (client.files_create.isOk = false →
      (vectorize_document env client).1 = .error 1) ∧
    (client.vector_stores_create.isOk = false →
      (vectorize_document env client).1 = .error 1) ∧
    (∀ fid vsid, client.files_create = .ok fid →
      client.vector_stores_create = .ok vsid →
      (client.vector_stores_files_create vsid fid).isOk = false →
      (vectorize_document env client).1 = .error 1) ∧
    ((main_entry ["vectorize_docs.py", "--check-only", id] env client).2 =
      [.vectorStoresFilesList id]) := by
  refine ⟨?_, ?_, ?_, ?_, ?_, ?_⟩
  · intro h
    simp [vectorize_document, h]
  · intro h
    by_cases hk : is_falsy_str env.openai_api_key <;>
      simp [vectorize_document, h, hk]
  · intro h
    by_cases hk : is_falsy_str env.openai_api_key <;>
      by_cases hp : env.test_pdf_exists <;>
        cases hf : client.files_create <;>
          simp_all [vectorize_document, Except.isOk, Except.toBool]
  · intro h
    by_cases hk : is_falsy_str env.openai_api_key <;>
      by_cases hp : env.test_pdf_exists <;>
        cases hf : client.files_create <;>
          cases hv : client.vector_stores_create <;>
            simp_all [vectorize_document, Except.isOk, Except.toBool]
  · intro fid vsid hf hv ha
    by_cases hk : is_falsy_str env.openai_api_key <;>
      by_cases hp : env.test_pdf_exists <;>
        cases hc : client.vector_stores_files_create vsid fid <;>
          simp_all [vectorize_document, Except.isOk, Except.toBool]
  · cases hl : client.vector_stores_files_list id <;>
      simp [main_entry, check_status, hl]

/-- A concrete environment with a key set and `test.pdf` present. -/
def envOk : IngestEnv := { openai_api_key := some "sk-key", test_pdf_exists := true }

/-- A concrete environment with no API key. -/
def envNoKey : IngestEnv := { openai_api_key := none, test_pdf_exists := true }

/-- A concrete environment where `test.pdf` is missing. -/
def envNoPdf : IngestEnv := { openai_api_key := some "sk-key", test_pdf_exists := false }

/-- A concrete client on which every endpoint succeeds and the uploaded file
ends in status completed. -/
def clientAllOk : Client :=
  { files_create := .ok "file_1",
    vector_stores_create := .ok "vs_1",
    vector_stores_files_create := fun _ _ => .ok (),
    vector_stores_files_list := fun _ =>
      .ok { data := [{ id := "file_1", status := "completed" }] } }

/-- A concrete client whose upload endpoint fails. -/
def clientUploadFails : Client :=
  { clientAllOk with files_create := .error "upload failed" }

/-- A concrete client whose vector-store create endpoint fails. -/
def clientCreateFails : Client :=
  { clientAllOk with vector_stores_create := .error "create failed" }

/-- A concrete client whose file-attach endpoint fails. -/
def clientAttachFails : Client :=
  { clientAllOk with vector_stores_files_create := fun _ _ => .error "attach failed" }

/-- A concrete client on which every endpoint succeeds but the file status
reported by the listing endpoint is permanently in progress: processing
never completes and never reaches a terminal error state. -/
def clientInProgress : Client :=
  { clientAllOk with
    vector_stores_files_list := fun _ =>
      .ok { data := [{ id := "file_1", status := "in_progress" }] } }

/-- Witness for C5: each exit branch exercised at a concrete input, and the
check-only mode at a concrete id. -/
theorem c5_witness :
    vectorize_document envNoKey clientAllOk = (.error 1, []) ∧
    (vectorize_document envNoPdf clientAllOk).1 = .error 1 ∧
    (vectorize_document envOk clientUploadFails).1 = .error 1 ∧
    (vectorize_document envOk clientCreateFails).1 = .error 1 ∧
    (vectorize_document envOk clientAttachFails).1 = .error 1 ∧
    (main_entry ["vectorize_docs.py", "--check-only", "vs_9"] envOk clientAllOk).2 =
      [.vectorStoresFilesList "vs_9"] :=
  ⟨(c5_exit_codes_and_check_only envNoKey clientAllOk "vs_9").1 rfl,
   (c5_exit_codes_and_check_only envNoPdf clientAllOk "vs_9").2.1 rfl,
   (c5_exit_codes_and_check_only envOk clientUploadFails "vs_9").2.2.1 rfl,
   (c5_exit_codes_and_check_only envOk clientCreateFails "vs_9").2.2.2.1 rfl,
   (c5_exit_codes_and_check_only envOk clientAttachFails "vs_9").2.2.2.2.1
     "file_1" "vs_1" rfl rfl rfl,
   (c5_exit_codes_and_check_only envOk clientAllOk "vs_9").2.2.2.2.2⟩

/-- C6: when the local input file `test.pdf` does not exist, the ingestion
flow exits with status 1 and its API-call trace is empty: no vendor-side
file object, vector store or attachment is created, because the upload call
is never reached. -/
theorem c6_missing_pdf_no_upload
    (env : IngestEnv) (client : Client)
    (h : env.test_pdf_exists = false) :
    vectorize_document env client = (.error 1, []) := by
  by_cases hk : is_falsy_str env.openai_api_key <;>
    simp [vectorize_document, h, hk]

/-- Witness for C6 at a concrete environment and client. -/
theorem c6_witness :
    vectorize_document envNoPdf clientAllOk = (.error 1, []) :=
  c6_missing_pdf_no_upload envNoPdf clientAllOk rfl

/-- C7: for every vector-store identifier, `check_status` issues exactly one
status-listing call and nothing else; running it any number of times in a
row produces only copies of that read-only call, so no call in any such
trace mutates the index. -/
theorem c7_check_status_read_only
    (client : Client) (vector_store_id : String) (n : Nat) :
    (check_status client vector_store_id).2 =
      [.vectorStoresFilesList vector_store_id] ∧
    check_status_trace_n client vector_store_id n =
      List.replicate n (.vectorStoresFilesList vector_store_id) ∧
    ∀ c ∈ check_status_trace_n client vector_store_id n, c.mutates = false := by
  have htr : (check_status client vector_store_id).2 =
      [ApiCall.vectorStoresFilesList vector_store_id] := by
    cases hl : client.vector_stores_files_list vector_store_id <;>
      simp [check_status, hl]
  have hrep : check_status_trace_n client vector_store_id n =
      List.replicate n (.vectorStoresFilesList vector_store_id) := by
    rw [check_status_trace_n, htr]
    induction n with
    | zero => simp
    | succ m ih => simp [List.replicate_succ, ih]
  refine ⟨htr, hrep, ?_⟩
  intro c hc
  rw [hrep] at hc
  rcases List.eq_of_mem_replicate hc with rfl
  simp [ApiCall.mutates]

/-- C8: the identifier a successful run of `vectorize_document` returns is
exactly the id the vector-store create call produced, and `check_status`
passes that identifier verbatim as the argument of its single
status-listing call: the id round-trips through both flows unchanged. -/
theorem c8_id_round_trip
    (env : IngestEnv) (client : Client) (vsid : String)
    (h : (vectorize_document env client).1 = .ok vsid) :
    client.vector_stores_create = .ok vsid ∧
    (check_status client vsid).2 = [.vectorStoresFilesList vsid] := by
  constructor
  · unfold vectorize_document at h
    by_cases hk : is_falsy_str env.openai_api_key
    · simp [hk] at h
    · by_cases hp : env.test_pdf_exists
      · cases hf : client.files_create with
        | error e => simp [hk, hp, hf] at h
        | ok fid =>
          cases hv : client.vector_stores_create with
          | error e => simp [hk, hp, hf, hv] at h
          | ok v =>
            cases hc : client.vector_stores_files_create v fid with
            | error e => simp [hk, hp, hf, hv, hc] at h
            | ok u =>
              simp [hk, hp, hf, hv, hc] at h
              rw [h]
      · simp [hk, hp] at h
  · cases hl : client.vector_stores_files_list vsid <;>
      simp [check_status, hl]

/-- Witness for C8 at the all-success client. -/
theorem c8_witness :
    clientAllOk.vector_stores_create = .ok "vs_1" ∧
    (check_status clientAllOk "vs_1").2 = [.vectorStoresFilesList "vs_1"] :=
  c8_id_round_trip envOk clientAllOk "vs_1" rfl

/-- Counterexample for C9: on a client whose listing endpoint reports the
attached file permanently in progress (never completed, never a terminal
error), `vectorize_document` nevertheless returns the vector store id, and
its trace contains exactly one status-listing call: the flow does not poll
repeatedly until processing completes. -/
theorem c9_counterexample :
    clientInProgress.vector_stores_files_list "vs_1" =
      .ok { data := [{ id := "file_1", status := "in_progress" }] } ∧
    (vectorize_document envOk clientInProgress).1 = .ok "vs_1" ∧
    (vectorize_document envOk clientInProgress).2.countP
      (fun c => !c.mutates) = 1 := by
  refine ⟨rfl, rfl, rfl⟩

/-- C9 as amended: after the attach call succeeds, the ingestion flow issues
exactly one status-listing call, whose outcome (any result or any failure)
it ignores, and then returns the vector store identifier without waiting for
processing to complete. -/
theorem c9_amended_single_status_check
    (env : IngestEnv) (client : Client) (fid vsid : String)
    (hk : is_falsy_str env.openai_api_key = false)
    (hp : env.test_pdf_exists = true)
    (hf : client.files_create = .ok fid)
    (hv : client.vector_stores_create = .ok vsid)
    (ha : client.vector_stores_files_create vsid fid = .ok ()) :
    vectorize_document env client =
      (.ok vsid,
       [.filesCreate, .vectorStoresCreate,
        .vectorStoresFilesCreate vsid fid,
        .vectorStoresFilesList vsid]) := by
  simp [vectorize_document, hk, hp, hf, hv, ha]

/-- Witness for the amended C9, at the client whose listing reports the file
still in progress: the flow returns after its single listing call anyway. -/
theorem c9_witness :
    vectorize_document envOk clientInProgress =
      (.ok "vs_1",
       [.filesCreate, .vectorStoresCreate,
        .vectorStoresFilesCreate "vs_1" "file_1",
        .vectorStoresFilesList "vs_1"]) :=
  c9_amended_single_status_check envOk clientInProgress "file_1" "vs_1"
    rfl rfl rfl rfl rfl

end Spec2Proof
